import Mathlib

/-!
Verification development for the NFT pipeline MCP server.

The TypeScript tool handlers (`handleGenerateImage`, `handleUploadToIPFS`,
`handleCreateMetadata`, `handleCreatePackage`) are shallowly embedded as pure
Lean functions.  External effects (the image-generation provider, HTTP byte
fetches, local file reads, storage-service uploads, and `process.env`) are
supplied by a `World` of oracles; each handler returns its result together
with the list of external calls it issued, so temporal properties ("X is
never invoked", "fails before any network call") become statements about
that trace.  JavaScript truthiness of strings and the `||` defaulting
operator are modelled explicitly (`jsTruthy`, `jsOr`).  A thrown JavaScript
`Error` is modelled as `Except.error` carrying the message string built by
the corresponding `catch` block.
-/

namespace NFTPipeline

/-! ## JavaScript string semantics -/

/-- Truthiness of a JS string: the empty string is falsy. -/
def jsTruthyS (s : String) : Bool := s != ""

/-- Truthiness of an optional JS string (`undefined` and `""` are falsy). -/
def jsTruthy : Option String → Bool
  | some s => jsTruthyS s
  | none => false

/-- `s || d` for strings. -/
def jsOrS (s d : String) : String := if s = "" then d else s

/-- `o || d` where `o` may be `undefined`. -/
def jsOr : Option String → String → String
  | some s, d => jsOrS s d
  | none, d => d

/-- `a || b` where both sides may be `undefined`. -/
def jsOrOpt (a b : Option String) : Option String := if jsTruthy a then a else b

/-- `a || undefined`: collapses a falsy value to `undefined`. -/
def jsUndef (a : Option String) : Option String := if jsTruthy a then a else none

/-- String interpolation of a possibly-`undefined` JS value. -/
def jsShowOpt : Option String → String
  | some s => s
  | none => "undefined"

/-! ## The filename slug from `nft_create_package.ts` / `nft_generate_image.ts`

`baseFileName.toLowerCase().replace(/[^a-z0-9]+/g, '-').replace(/^-+|-+$/g, '').substring(0, 50)`
-/

/-- Membership in the regex class `[a-z0-9]` (char codes 97..122 and 48..57). -/
def isAlnumLower (c : Char) : Bool :=
  (97 ≤ c.toNat && c.toNat ≤ 122) || (48 ≤ c.toNat && c.toNat ≤ 57)

/-- ASCII action of `String.prototype.toLowerCase` (codes 65..90 shift by 32). -/
def jsToLower (c : Char) : Char :=
  if 65 ≤ c.toNat ∧ c.toNat ≤ 90 then Char.ofNat (c.toNat + 32) else c

/-- One character of `replace(/[^a-z0-9]+/g, '-')`: keep the class, else a hyphen. -/
def hyphenMap (c : Char) : Char := if isAlnumLower c then c else '-'

/-- Merge consecutive hyphens, so that mapping each bad character to `'-'` and
then collapsing equals replacing each maximal bad run by a single `'-'`. -/
def collapseHyphens : List Char → List Char
  | [] => []
  | [c] => [c]
  | c :: d :: rest =>
    if c = '-' ∧ d = '-' then collapseHyphens (d :: rest)
    else c :: collapseHyphens (d :: rest)

/-- The leading-hyphen half of the strip regex: remove the leading hyphen run. -/
def dropLeadingHyphens (l : List Char) : List Char := l.dropWhile (· == '-')

/-- The trailing-hyphen half of the strip regex: remove the trailing hyphen run. -/
def dropTrailingHyphens (l : List Char) : List Char :=
  (l.reverse.dropWhile (· == '-')).reverse

/-- The slug pipeline on character lists, in source order: lower-case, replace
bad runs by one hyphen, strip leading/trailing hyphens, truncate to 50. -/
def sanitizeList (l : List Char) : List Char :=
  (dropTrailingHyphens (dropLeadingHyphens
    (collapseHyphens (l.map (fun c => hyphenMap (jsToLower c)))))).take 50

/-- The filename slug used by `handleCreatePackage` and `handleGenerateImage`. -/
def sanitizeFileName (s : String) : String := ⟨sanitizeList s.data⟩

/-- Characters that can occur in slug output: the kept class plus hyphen. -/
def isSanChar (c : Char) : Bool := isAlnumLower c || c == '-'

/-- No two adjacent hyphens: the invariant `collapseHyphens` establishes. -/
def noDD (a b : Char) : Prop := ¬(a = '-' ∧ b = '-')

/-! ## URL path helpers from `nft_upload_to_ipfs.ts`

`new URL(u).pathname` and `path.split('/').pop()`.
-/

/-- Drop everything up to and including the first `"://"`. -/
def afterSchemeSep : List Char → List Char
  | ':' :: '/' :: '/' :: rest => rest
  | _ :: rest => afterSchemeSep rest
  | [] => []

/-- `new URL(u).pathname` for an absolute `scheme://authority/path?query` URL:
the part of the remainder from the first `'/'` up to `'?'`/`'#'`; the empty
path of a special scheme reads back as `"/"`. -/
def urlPathname (u : String) : String :=
  match (afterSchemeSep u.data).dropWhile (· != '/') with
  | [] => "/"
  | l => ⟨l.takeWhile (fun c => c != '?' && c != '#')⟩

/-- `s.split('/').pop()`: the (possibly empty) segment after the last `'/'`. -/
def lastSegment (s : String) : String :=
  ⟨(s.data.reverse.takeWhile (· != '/')).reverse⟩

/-! ## Data model -/

/-- A trait value (`z.union([z.string(), z.number()])`). -/
inductive AttrVal
  | str (s : String)
  | num (n : Int)
deriving DecidableEq, Repr

/-- One NFT trait (`{ trait_type, value }`). -/
structure Attribute where
  trait_type : String
  value : AttrVal
deriving DecidableEq, Repr

/-- `z.record(z.any())`: custom properties, values abstracted to strings. -/
abbrev Props := List (String × String)

/-- The metadata JSON document assembled by `handleCreateMetadata`. -/
structure NFTMetadata where
  name : String
  description : String
  image : String
  external_url : Option String
  attributes : List Attribute
  properties : Props
deriving DecidableEq, Repr

/-- A byte buffer.  `raw` are bytes obtained from an oracle (URL fetch or file
read); `ofMetadata` is `Buffer.from(JSON.stringify(metadata, null, 2))`,
identified by the document it serializes. -/
inductive Bytes
  | raw (data : String)
  | ofMetadata (m : NFTMetadata)
deriving DecidableEq, Repr

/-- An upstream HTTP error response; `body` stands for
`JSON.stringify(error.response.data)`. -/
structure HttpResp where
  status : Nat
  body : String
deriving DecidableEq, Repr

/-- A rejection from an external call (`axios` error or thrown `Error`):
`response` is present exactly for HTTP-status failures. -/
structure ExtErr where
  response : Option HttpResp
  message : String
deriving DecidableEq, Repr

/-- The request handed to `imageGenerator.generateImage`. -/
structure GenRequest where
  prompt : String
  style : Option String
  aspectRatio : String
  quality : String
  seed : Option Int := none
  model : Option String := none
deriving DecidableEq, Repr

/-- `ImageGenerationResult` from `types/index.ts`. -/
structure GenResult where
  success : Bool
  imageUrl : Option String
  localPath : Option String
  prompt : String
  model : String
  cost : Option Nat := none
  error : Option String := none
deriving DecidableEq, Repr

/-- One observable action of a pipeline run.  The first four are the external
calls (generation-provider call, `axios.get` byte fetch, `fs.readFileSync`,
`axios.post` upload); `metadataCall` marks entry into `handleCreateMetadata`
so that "the metadata stage is never invoked" is expressible. -/
inductive Event
  | generate (prompt : String)
  | fetchUrl (url : String)
  | readFile (path : String)
  | post (endpoint : String) (fileName : String)
  | metadataCall
deriving DecidableEq, Repr

/-- Whether an event is an actual external call (everything except the
`metadataCall` instrumentation marker). -/
def Event.isExternal : Event → Bool
  | .metadataCall => false
  | _ => true

/-- Whether an event is an image-generation call. -/
def Event.isGenerate : Event → Bool
  | .generate _ => true
  | _ => false

/-- The oracles for all external effects plus `process.env` and `Date.now()`.
`post endpoint fileName body apiKey` returns the content identifier the
handler extracts from the service response on success. -/
structure World where
  env : String → Option String
  gen : GenRequest → Except ExtErr GenResult
  fetch : String → Except ExtErr Bytes
  readFile : String → Except ExtErr Bytes
  post : String → String → Bytes → String → Except ExtErr String
  now : Nat

/-! ## Service configuration resolution (shared by both IPFS handlers) -/

/-- `serviceEnvMap`: service name to credential environment variable. -/
def serviceEnvMap : String → Option String
  | "pinata" => some "PINATA_API_KEY"
  | "nftStorage" => some "NFT_STORAGE_API_KEY"
  | "web3Storage" => some "WEB3_STORAGE_API_KEY"
  | _ => none

/-- `parsed.service || process.env.IPFS_SERVICE || 'pinata'`. -/
def resolveService (explicit : Option String) (env : String → Option String) : String :=
  jsOr explicit (jsOr (env "IPFS_SERVICE") "pinata")

/-- `parsed.apiKey || process.env[serviceEnvMap[service]] || ''`; an unmapped
service indexes the environment with the string `"undefined"`. -/
def resolveApiKey (explicit : Option String) (service : String)
    (env : String → Option String) : String :=
  jsOr explicit (jsOr (env (jsShowOpt (serviceEnvMap service))) "")

/-- The message of the configuration error thrown when no credential resolves. -/
def apiKeyRequiredMsg (service : String) : String :=
  "API key/JWT required for " ++ service ++ ". Set " ++
    jsShowOpt (serviceEnvMap service) ++
    " in environment or pass as apiKey parameter."

/-- The catch block of `handleUploadToIPFS`. -/
def uploadErrorMsg (e : ExtErr) : String :=
  match e.response with
  | some r =>
    if r.status = 403 then
      "Pinata authentication failed (403): Ensure your JWT has \"Files\" Write permission enabled. Response: " ++ r.body
    else if r.status = 401 then
      "Invalid Pinata JWT (401): Check that your JWT is correct and not expired. Response: " ++ r.body
    else
      "IPFS upload failed (" ++ toString r.status ++ "): " ++ r.body
  | none => "IPFS upload failed: " ++ e.message

/-- The catch block of `handleCreateMetadata`. -/
def metadataErrorMsg (e : ExtErr) : String :=
  match e.response with
  | some r =>
    if r.status = 403 then
      "Pinata authentication failed (403): Ensure your JWT has \"Files\" Write permission enabled. Response: " ++ r.body
    else if r.status = 401 then
      "Invalid Pinata JWT (401): Check that your JWT is correct and not expired. Response: " ++ r.body
    else
      "Metadata upload failed (" ++ toString r.status ++ "): " ++ r.body
  | none => "Metadata creation failed: " ++ e.message

/-! ## `handleUploadToIPFS` (`src/tools/ipfs/nft_upload_to_ipfs.ts`) -/

/-- Parsed arguments of the upload tool (zod defaults applied via `getD`). -/
structure UploadArgs where
  imageUrl : Option String := none
  imagePath : Option String := none
  fileName : Option String := none
  service : Option String := none
  apiKey : Option String := none
deriving DecidableEq, Repr

/-- The success envelope of the upload tool. -/
structure UploadSuccess where
  success : Bool
  cid : String
  ipfsUrl : String
  gatewayUrl : String
  service : String
  fileName : String
  message : String
deriving DecidableEq, Repr

def pinataEndpoint : String := "https://uploads.pinata.cloud/v3/files"

def nftStorageEndpoint : String := "https://api.nft.storage/upload"

def web3StorageEndpoint : String := "https://api.web3.storage/upload"

def pinataGateway (cid : String) : String := "https://gateway.pinata.cloud/ipfs/" ++ cid

def nftStorageGateway (cid : String) : String := "https://nftstorage.link/ipfs/" ++ cid

def web3StorageGateway (cid : String) : String := "https://w3s.link/ipfs/" ++ cid

/-- The endpoint each service branch posts to. -/
def endpointOf (s : String) : String :=
  if s = "pinata" then pinataEndpoint
  else if s = "nftStorage" then nftStorageEndpoint
  else if s = "web3Storage" then web3StorageEndpoint
  else ""

/-- Whether a service name hits one of the three upload branches. -/
def serviceKnown (s : String) : Prop :=
  s = "pinata" ∨ s = "nftStorage" ∨ s = "web3Storage"

instance (s : String) : Decidable (serviceKnown s) := by
  unfold serviceKnown
  infer_instance

/-- The "upload based on service" branches of `handleUploadToIPFS`: post the
buffer to the selected service, build the success envelope from the returned
CID, or surface an unsupported-service error. -/
def uploadPost (w : World) (service apiKey : String) (buf : Bytes) (fileName : String)
    (tr : List Event) : Except String UploadSuccess × List Event :=
  if service = "pinata" then
    match w.post pinataEndpoint fileName buf apiKey with
    | .error e => (.error (uploadErrorMsg e), tr ++ [.post pinataEndpoint fileName])
    | .ok cid =>
      (.ok { success := true, cid := cid, ipfsUrl := "ipfs://" ++ cid,
             gatewayUrl := pinataGateway cid, service := service, fileName := fileName,
             message := "Image uploaded to IPFS successfully" },
       tr ++ [.post pinataEndpoint fileName])
  else if service = "nftStorage" then
    match w.post nftStorageEndpoint fileName buf apiKey with
    | .error e => (.error (uploadErrorMsg e), tr ++ [.post nftStorageEndpoint fileName])
    | .ok cid =>
      (.ok { success := true, cid := cid, ipfsUrl := "ipfs://" ++ cid,
             gatewayUrl := nftStorageGateway cid, service := service, fileName := fileName,
             message := "Image uploaded to IPFS successfully" },
       tr ++ [.post nftStorageEndpoint fileName])
  else if service = "web3Storage" then
    match w.post web3StorageEndpoint fileName buf apiKey with
    | .error e => (.error (uploadErrorMsg e), tr ++ [.post web3StorageEndpoint fileName])
    | .ok cid =>
      (.ok { success := true, cid := cid, ipfsUrl := "ipfs://" ++ cid,
             gatewayUrl := web3StorageGateway cid, service := service, fileName := fileName,
             message := "Image uploaded to IPFS successfully" },
       tr ++ [.post web3StorageEndpoint fileName])
  else
    (.error ("IPFS upload failed: Unsupported IPFS service: " ++ service), tr)

/-- The filename-inference step of the URL branch: use the last path segment
of the URL when it contains a dot, otherwise the parsed filename. -/
def urlInferredFileName (u : String) (parsedFileName : String) : String :=
  if lastSegment (urlPathname u) != "" && (lastSegment (urlPathname u)).data.contains '.' then
    lastSegment (urlPathname u)
  else parsedFileName

/-- `handleUploadToIPFS`: refine check, credential resolution, byte
acquisition (URL fetch with filename inference, or local read with basename
override), then the service upload.  Thrown errors pass through the
handler's catch block (`uploadErrorMsg`). -/
def handleUploadToIPFS (args : UploadArgs) (w : World) :
    Except String UploadSuccess × List Event :=
  if (jsTruthy args.imageUrl || jsTruthy args.imagePath) = false then
    (.error "IPFS upload failed: Either imageUrl or imagePath must be provided", [])
  else if resolveApiKey args.apiKey (resolveService args.service w.env) w.env = "" then
    (.error ("IPFS upload failed: " ++
       apiKeyRequiredMsg (resolveService args.service w.env)), [])
  else if jsTruthy args.imageUrl then
    match w.fetch (args.imageUrl.getD "") with
    | .error e => (.error (uploadErrorMsg e), [.fetchUrl (args.imageUrl.getD "")])
    | .ok buf =>
      uploadPost w (resolveService args.service w.env)
        (resolveApiKey args.apiKey (resolveService args.service w.env) w.env) buf
        (urlInferredFileName (args.imageUrl.getD "") (args.fileName.getD "image.png"))
        [.fetchUrl (args.imageUrl.getD "")]
  else if jsTruthy args.imagePath then
    match w.readFile (args.imagePath.getD "") with
    | .error e => (.error (uploadErrorMsg e), [.readFile (args.imagePath.getD "")])
    | .ok buf =>
      uploadPost w (resolveService args.service w.env)
        (resolveApiKey args.apiKey (resolveService args.service w.env) w.env) buf
        (jsOrS (lastSegment (args.imagePath.getD "")) (args.fileName.getD "image.png"))
        [.readFile (args.imagePath.getD "")]
  else
    (.error "IPFS upload failed: No image source provided", [])

/-! ## `handleCreateMetadata` (`src/tools/ipfs/nft_create_metadata.ts`) -/

/-- Parsed arguments of the metadata tool. -/
structure MetadataArgs where
  name : String
  description : String
  imageHash : String
  external_url : Option String := none
  attributes : Option (List Attribute) := none
  properties : Option Props := none
  service : Option String := none
  apiKey : Option String := none
deriving DecidableEq, Repr

/-- The success envelope of the metadata tool. -/
structure MetadataSuccess where
  success : Bool
  metadataCid : String
  ipfsUrl : String
  gatewayUrl : String
  metadata : NFTMetadata
  service : String
  message : String
deriving DecidableEq, Repr

/-- The metadata JSON object built by `handleCreateMetadata`. -/
def buildMetadataDoc (args : MetadataArgs) : NFTMetadata :=
  { name := args.name, description := args.description,
    image := "ipfs://" ++ args.imageHash,
    external_url := args.external_url,
    attributes := args.attributes.getD [],
    properties := args.properties.getD [] }

/-- The "upload metadata to IPFS" branches: post the serialized document as
`metadata.json` to the selected service. -/
def metadataPost (w : World) (service apiKey : String) (doc : NFTMetadata)
    (tr : List Event) : Except String MetadataSuccess × List Event :=
  if service = "pinata" then
    match w.post pinataEndpoint "metadata.json" (Bytes.ofMetadata doc) apiKey with
    | .error e => (.error (metadataErrorMsg e), tr ++ [.post pinataEndpoint "metadata.json"])
    | .ok cid =>
      (.ok { success := true, metadataCid := cid, ipfsUrl := "ipfs://" ++ cid,
             gatewayUrl := pinataGateway cid, metadata := doc, service := service,
             message := "Metadata uploaded to IPFS successfully" },
       tr ++ [.post pinataEndpoint "metadata.json"])
  else if service = "nftStorage" then
    match w.post nftStorageEndpoint "metadata.json" (Bytes.ofMetadata doc) apiKey with
    | .error e => (.error (metadataErrorMsg e), tr ++ [.post nftStorageEndpoint "metadata.json"])
    | .ok cid =>
      (.ok { success := true, metadataCid := cid, ipfsUrl := "ipfs://" ++ cid,
             gatewayUrl := nftStorageGateway cid, metadata := doc, service := service,
             message := "Metadata uploaded to IPFS successfully" },
       tr ++ [.post nftStorageEndpoint "metadata.json"])
  else if service = "web3Storage" then
    match w.post web3StorageEndpoint "metadata.json" (Bytes.ofMetadata doc) apiKey with
    | .error e => (.error (metadataErrorMsg e), tr ++ [.post web3StorageEndpoint "metadata.json"])
    | .ok cid =>
      (.ok { success := true, metadataCid := cid, ipfsUrl := "ipfs://" ++ cid,
             gatewayUrl := web3StorageGateway cid, metadata := doc, service := service,
             message := "Metadata uploaded to IPFS successfully" },
       tr ++ [.post web3StorageEndpoint "metadata.json"])
  else
    (.error ("Metadata creation failed: Unsupported IPFS service: " ++ service), tr)

/-- `handleCreateMetadata`: credential resolution, document assembly, upload.
The leading `metadataCall` marks that the handler was invoked. -/
def handleCreateMetadata (args : MetadataArgs) (w : World) :
    Except String MetadataSuccess × List Event :=
  if resolveApiKey args.apiKey (resolveService args.service w.env) w.env = "" then
    (.error ("Metadata creation failed: " ++
       apiKeyRequiredMsg (resolveService args.service w.env)), [Event.metadataCall])
  else
    metadataPost w (resolveService args.service w.env)
      (resolveApiKey args.apiKey (resolveService args.service w.env) w.env)
      (buildMetadataDoc args) [Event.metadataCall]

/-! ## `handleGenerateImage` (`src/tools/image/nft_generate_image.ts`) -/

/-- Parsed arguments of the generation tool (zod defaults applied). -/
structure GenImageArgs where
  prompt : String
  style : Option String := none
  aspectRatio : String := "1:1"
  quality : String := "high"
  seed : Option Int := none
  model : Option String := none
deriving DecidableEq, Repr

/-- The success envelope of the generation tool (claim-relevant fields). -/
structure GenImageSuccess where
  success : Bool
  imageUrl : Option String
  localPath : Option String
  prompt : String
  model : String
  suggestedFilename : String
deriving DecidableEq, Repr

/-- `handleGenerateImage`: call the provider, reject empty results, derive the
suggested filename `slug(prompt)-timestamp.png`. -/
def handleGenerateImage (args : GenImageArgs) (w : World) :
    Except String GenImageSuccess × List Event :=
  match w.gen { prompt := args.prompt, style := args.style,
                aspectRatio := args.aspectRatio, quality := args.quality,
                seed := args.seed, model := args.model } with
  | .error e => (.error ("Failed to generate image: " ++ e.message), [.generate args.prompt])
  | .ok r =>
    if r.success = false ∨ (jsTruthy r.imageUrl = false ∧ jsTruthy r.localPath = false) then
      (.error ("Failed to generate image: " ++ jsOr r.error "Image generation failed"),
       [.generate args.prompt])
    else
      (.ok { success := true, imageUrl := r.imageUrl, localPath := r.localPath,
             prompt := r.prompt, model := r.model,
             suggestedFilename :=
               sanitizeFileName args.prompt ++ "-" ++ toString w.now ++ ".png" },
       [.generate args.prompt])

/-! ## `handleCreatePackage` (`src/tools/combined/nft_create_package.ts`) -/

/-- Parsed arguments of the build-complete tool. -/
structure PackageArgs where
  prompt : Option String := none
  imageUrl : Option String := none
  imagePath : Option String := none
  style : Option String := none
  aspectRatio : String := "1:1"
  quality : String := "high"
  name : String
  description : String
  external_url : Option String := none
  attributes : Option (List Attribute) := none
  properties : Option Props := none
  ipfsService : Option String := none
  ipfsApiKey : Option String := none
deriving DecidableEq, Repr

/-- The `.refine` predicate of the package schema:
`data.prompt || data.imageUrl || data.imagePath`. -/
def refinePackage (args : PackageArgs) : Bool :=
  jsTruthy args.prompt || jsTruthy args.imageUrl || jsTruthy args.imagePath

/-- The image-resolution state after step 1 of the orchestrator
(`finalImageUrl` / `finalImagePath` / `generatedPrompt`). -/
structure Resolved where
  finalImageUrl : Option String
  finalImagePath : Option String
  generatedPrompt : Option String
deriving DecidableEq, Repr

/-- The request object handed to `imageGenerator.generateImage` by step 1
of the orchestrator. -/
def genRequestOfPackage (parsed : PackageArgs) : GenRequest :=
  { prompt := parsed.prompt.getD "", style := parsed.style,
    aspectRatio := parsed.aspectRatio, quality := parsed.quality }

/-- Step 1 of the orchestrator: generate from the prompt, else pass the URL
through, else pass the local path through. -/
def resolveImage (parsed : PackageArgs) (w : World) : Except String Resolved × List Event :=
  if jsTruthy parsed.prompt then
    match w.gen (genRequestOfPackage parsed) with
    | .error e => (.error e.message, [.generate (parsed.prompt.getD "")])
    | .ok r =>
      if r.success = false ∨ (jsTruthy r.imageUrl = false ∧ jsTruthy r.localPath = false) then
        (.error (jsOr r.error "Image generation failed"), [.generate (parsed.prompt.getD "")])
      else
        (.ok { finalImageUrl := r.imageUrl, finalImagePath := r.localPath,
               generatedPrompt := some r.prompt }, [.generate (parsed.prompt.getD "")])
  else if jsTruthy parsed.imageUrl then
    (.ok { finalImageUrl := parsed.imageUrl, finalImagePath := none,
           generatedPrompt := none }, [])
  else if jsTruthy parsed.imagePath then
    (.ok { finalImageUrl := none, finalImagePath := parsed.imagePath,
           generatedPrompt := none }, [])
  else
    (.error "No image source provided", [])

/-- `parsed.name || parsed.prompt || 'nft-image'`. -/
def packageBaseFileName (parsed : PackageArgs) : String :=
  jsOrS parsed.name (jsOr parsed.prompt "nft-image")

/-- The deterministic upload filename derived in step 2:
`slug(base) + '-' + Date.now() + '.png'`. -/
def packageFileName (parsed : PackageArgs) (now : Nat) : String :=
  sanitizeFileName (packageBaseFileName parsed) ++ "-" ++ toString now ++ ".png"

/-- The argument object the orchestrator hands to `handleUploadToIPFS`:
`{ imageUrl: finalImageUrl || undefined, imagePath: finalImagePath || parsed.imagePath, ... }`. -/
def packageUploadArgs (parsed : PackageArgs) (r : Resolved) (now : Nat) : UploadArgs :=
  { imageUrl := jsUndef r.finalImageUrl,
    imagePath := jsOrOpt r.finalImagePath parsed.imagePath,
    fileName := some (packageFileName parsed now),
    service := parsed.ipfsService,
    apiKey := parsed.ipfsApiKey }

/-- The argument object the orchestrator hands to `handleCreateMetadata`. -/
def packageMetadataArgs (parsed : PackageArgs) (imageCid : String) : MetadataArgs :=
  { name := parsed.name, description := parsed.description, imageHash := imageCid,
    external_url := parsed.external_url, attributes := parsed.attributes,
    properties := parsed.properties, service := parsed.ipfsService,
    apiKey := parsed.ipfsApiKey }

/-- Stand-in for `uploadResult.content[0].text` (the JSON-serialized success
envelope) when it is spliced into an orchestrator error message; the exact
serialization text is abstracted to a field listing. -/
def renderUploadResp (r : UploadSuccess) : String :=
  "success: true, cid: " ++ r.cid ++ ", ipfsUrl: " ++ r.ipfsUrl ++
    ", gatewayUrl: " ++ r.gatewayUrl ++ ", service: " ++ r.service ++
    ", fileName: " ++ r.fileName

/-- The outer catch of `handleCreatePackage`. -/
def pkgWrap (m : String) : String := "NFT package creation failed: " ++ m

/-- The success envelope of the build-complete tool. -/
structure PackageSuccess where
  success : Bool
  imageCid : String
  metadataCid : String
  imageUrl : String
  metadataUrl : String
  ipfsImageUrl : String
  ipfsMetadataUrl : String
  metadata : NFTMetadata
  generatedPrompt : Option String
  service : String
deriving DecidableEq, Repr

/-- `handleCreatePackage`: refine check, then steps 1-3 with every thrown
error wrapped by the outer catch. -/
def handleCreatePackage (args : PackageArgs) (w : World) :
    Except String PackageSuccess × List Event :=
  if refinePackage args = false then
    (.error (pkgWrap "Must provide either prompt, imageUrl, or imagePath"), [])
  else
    match resolveImage args w with
    | (.error m, t1) => (.error (pkgWrap m), t1)
    | (.ok r, t1) =>
      match handleUploadToIPFS (packageUploadArgs args r w.now) w with
      | (.error m, t2) => (.error (pkgWrap m), t1 ++ t2)
      | (.ok ur, t2) =>
        if ur.success = false then
          (.error (pkgWrap ("Image upload to IPFS failed: " ++ renderUploadResp ur)),
           t1 ++ t2)
        else if ur.cid = "" then
          (.error (pkgWrap ("No CID returned from IPFS upload. Response: " ++
                     renderUploadResp ur)), t1 ++ t2)
        else
          match handleCreateMetadata (packageMetadataArgs args ur.cid) w with
          | (.error m, t3) => (.error (pkgWrap m), t1 ++ t2 ++ t3)
          | (.ok mr, t3) =>
            if mr.success = false then
              (.error (pkgWrap "Metadata upload to IPFS failed"), t1 ++ t2 ++ t3)
            else
              (.ok { success := true, imageCid := ur.cid, metadataCid := mr.metadataCid,
                     imageUrl := ur.gatewayUrl, metadataUrl := mr.gatewayUrl,
                     ipfsImageUrl := "ipfs://" ++ ur.cid,
                     ipfsMetadataUrl := "ipfs://" ++ mr.metadataCid,
                     metadata := mr.metadata, generatedPrompt := r.generatedPrompt,
                     service := resolveService args.ipfsService w.env },
               t1 ++ t2 ++ t3)

/-- Substring containment, used to state what an error message carries. -/
def containsSub (needle hay : String) : Prop := needle.data <:+: hay.data

instance (needle hay : String) : Decidable (containsSub needle hay) := by
  unfold containsSub
  infer_instance

/-! ## Concrete test fixtures (worlds and arguments used by witnesses) -/

/-- A world where every external call succeeds: fetches echo the URL as bytes,
image posts return CID `abc123`, metadata posts return `def456`. -/
def okWorld : World :=
  { env := fun _ => none,
    gen := fun _ => .error { response := none, message := "generator offline" },
    fetch := fun u => .ok (Bytes.raw u),
    readFile := fun p => .error { response := none, message := "ENOENT: " ++ p },
    post := fun _ _ b _ => match b with
      | .raw _ => .ok "abc123"
      | .ofMetadata _ => .ok "def456",
    now := 5 }

/-- A build-complete request supplying an image URL and an explicit API key. -/
def argsUrl : PackageArgs :=
  { imageUrl := some "http://x/fox.png", name := "Fox 1", description := "a fox",
    ipfsApiKey := some "jwt" }

/-- A build-complete request supplying no image source at all. -/
def argsNone : PackageArgs := { name := "N", description := "D" }

/-- A build-complete request supplying all three image sources at once. -/
def argsAll : PackageArgs :=
  { prompt := some "a red fox", imageUrl := some "http://x/fox.png",
    imagePath := some "dir/a.png", name := "Fox 1", description := "a fox",
    ipfsApiKey := some "jwt" }

/-- An upstream 500 error. -/
def err500 : ExtErr :=
  { response := some { status := 500, body := "server oops" },
    message := "Request failed with status code 500" }

/-- An upstream 500 error with body `boom`. -/
def errBoom : ExtErr :=
  { response := some { status := 500, body := "boom" },
    message := "Request failed with status code 500" }

/-- A world where every storage post fails with HTTP 500. -/
def postFailWorld : World :=
  { okWorld with post := fun _ _ _ _ => .error err500 }

/-- A world where the image post succeeds but the metadata post fails. -/
def metaFailWorld : World :=
  { okWorld with post := fun _ _ b _ => match b with
      | .raw _ => .ok "abc123"
      | .ofMetadata _ => .error errBoom }

/-- `okWorld` with successful local file reads. -/
def pathWorld : World :=
  { okWorld with readFile := fun p => .ok (Bytes.raw p) }

/-- A generator result echoing the prompt with a remote URL. -/
def genEcho (req : GenRequest) : GenResult :=
  { success := true, imageUrl := some "http://g/gen.png", localPath := none,
    prompt := req.prompt, model := "flux" }

/-- `pathWorld` with a successful image generator echoing the prompt. -/
def genOkWorld : World :=
  { pathWorld with gen := fun req => .ok (genEcho req) }

/-- An upload request with no API key anywhere (and `okWorld.env` is empty). -/
def uaNoKey : UploadArgs := { imageUrl := some "http://x/a.png" }

/-- A metadata request with no API key anywhere. -/
def maNoKey : MetadataArgs := { name := "N", description := "D", imageHash := "h" }

/-- An upload-from-URL request with an explicit filename that the URL-derived
name overrides. -/
def ua8 : UploadArgs :=
  { imageUrl := some "http://x/a/fox.png", fileName := some "custom.png",
    apiKey := some "k" }

/-- An upload-from-path request with an explicit fallback filename. -/
def ua10 : UploadArgs :=
  { imagePath := some "dir/img.png", fileName := some "fallback.png",
    apiKey := some "k" }

/-- The resolved image state for `argsUrl`. -/
def rUrl : Resolved :=
  { finalImageUrl := some "http://x/fox.png", finalImagePath := none,
    generatedPrompt := none }

/-- The success envelope of the image upload in `okWorld` for `argsUrl`. -/
def urFox : UploadSuccess :=
  { success := true, cid := "abc123", ipfsUrl := "ipfs://abc123",
    gatewayUrl := "https://gateway.pinata.cloud/ipfs/abc123", service := "pinata",
    fileName := "fox.png", message := "Image uploaded to IPFS successfully" }

/-- The success envelope of the whole `argsUrl` run in `okWorld`. -/
def resOkPkg : PackageSuccess :=
  { success := true, imageCid := "abc123", metadataCid := "def456",
    imageUrl := "https://gateway.pinata.cloud/ipfs/abc123",
    metadataUrl := "https://gateway.pinata.cloud/ipfs/def456",
    ipfsImageUrl := "ipfs://abc123", ipfsMetadataUrl := "ipfs://def456",
    metadata := { name := "Fox 1", description := "a fox", image := "ipfs://abc123",
                  external_url := none, attributes := [], properties := [] },
    generatedPrompt := none, service := "pinata" }

/-- The event trace of the whole `argsUrl` run in `okWorld`. -/
def okPkgTrace : List Event :=
  [.fetchUrl "http://x/fox.png", .post pinataEndpoint "fox.png",
   .metadataCall, .post pinataEndpoint "metadata.json"]

/-- The success envelope of the `ua8` upload in `okWorld`. -/
def ua8res : UploadSuccess :=
  { success := true, cid := "abc123", ipfsUrl := "ipfs://abc123",
    gatewayUrl := "https://gateway.pinata.cloud/ipfs/abc123", service := "pinata",
    fileName := "fox.png", message := "Image uploaded to IPFS successfully" }

/-- The success envelope of the `ua10` upload in `pathWorld`. -/
def ua10res : UploadSuccess :=
  { success := true, cid := "abc123", ipfsUrl := "ipfs://abc123",
    gatewayUrl := "https://gateway.pinata.cloud/ipfs/abc123", service := "pinata",
    fileName := "img.png", message := "Image uploaded to IPFS successfully" }

/-- Arguments for the generate-image tool used by the C5 witness. -/
def genImgArgs : GenImageArgs := { prompt := "a red fox" }

/-- The success envelope of `genImgArgs` in `genOkWorld`. -/
def genImgRes : GenImageSuccess :=
  { success := true, imageUrl := some "http://g/gen.png", localPath := none,
    prompt := "a red fox", model := "flux", suggestedFilename := "a-red-fox-5.png" }

/-- A build-complete request whose name is empty and that has no prompt, so
the filename base falls back to the literal `nft-image`. -/
def argsEmptyName : PackageArgs :=
  { imageUrl := some "http://x/a.png", name := "", description := "d" }

/-! ## Plumbing lemmas -/

theorem jsTruthy_jsUndef (o : Option String) : jsTruthy (jsUndef o) = jsTruthy o := by
  unfold jsUndef
  split
  · rfl
  · rename_i h
    rw [Bool.not_eq_true] at h
    rw [h]
    rfl

theorem uploadPost_trace (w : World) (sv k : String) (b : Bytes) (f : String)
    (tr : List Event) :
    (uploadPost w sv k b f tr).2 = tr ∨
      ∃ ep, (uploadPost w sv k b f tr).2 = tr ++ [Event.post ep f] := by
  unfold uploadPost
  split
  · cases w.post pinataEndpoint f b k <;> exact Or.inr ⟨_, rfl⟩
  split
  · cases w.post nftStorageEndpoint f b k <;> exact Or.inr ⟨_, rfl⟩
  split
  · cases w.post web3StorageEndpoint f b k <;> exact Or.inr ⟨_, rfl⟩
  · exact Or.inl rfl

theorem mem_upload_trace (a : UploadArgs) (w : World) (e : Event)
    (h : e ∈ (handleUploadToIPFS a w).2) :
    (∃ u, e = Event.fetchUrl u) ∨ (∃ p, e = Event.readFile p) ∨
      (∃ ep f, e = Event.post ep f) := by
  unfold handleUploadToIPFS at h
  split at h
  · simp at h
  split at h
  · simp at h
  split at h
  · rcases hfetch : w.fetch (a.imageUrl.getD "") with e' | buf <;> rw [hfetch] at h
    · simp at h
      exact Or.inl ⟨_, h⟩
    · rcases uploadPost_trace w (resolveService a.service w.env)
        (resolveApiKey a.apiKey (resolveService a.service w.env) w.env) buf
        (urlInferredFileName (a.imageUrl.getD "") (a.fileName.getD "image.png"))
        [Event.fetchUrl (a.imageUrl.getD "")] with ht | ⟨ep, ht⟩ <;> rw [ht] at h
      · simp at h
        exact Or.inl ⟨_, h⟩
      · simp at h
        rcases h with h | h
        · exact Or.inl ⟨_, h⟩
        · exact Or.inr (Or.inr ⟨_, _, h⟩)
  split at h
  · rcases hread : w.readFile (a.imagePath.getD "") with e' | buf <;> rw [hread] at h
    · simp at h
      exact Or.inr (Or.inl ⟨_, h⟩)
    · rcases uploadPost_trace w (resolveService a.service w.env)
        (resolveApiKey a.apiKey (resolveService a.service w.env) w.env) buf
        (jsOrS (lastSegment (a.imagePath.getD "")) (a.fileName.getD "image.png"))
        [Event.readFile (a.imagePath.getD "")] with ht | ⟨ep, ht⟩ <;> rw [ht] at h
      · simp at h
        exact Or.inr (Or.inl ⟨_, h⟩)
      · simp at h
        rcases h with h | h
        · exact Or.inr (Or.inl ⟨_, h⟩)
        · exact Or.inr (Or.inr ⟨_, _, h⟩)
  · simp at h

theorem mem_resolve_trace (args : PackageArgs) (w : World) (e : Event)
    (h : e ∈ (resolveImage args w).2) : ∃ q, e = Event.generate q := by
  unfold resolveImage at h
  split at h
  · rcases hgen : w.gen (genRequestOfPackage args) with e' | r <;> rw [hgen] at h
    · simp at h
      exact ⟨_, h⟩
    · rw [apply_ite Prod.snd] at h
      simp at h
      exact ⟨_, h⟩
  split at h
  · simp at h
  split at h
  · simp at h
  · simp at h

theorem metadataPost_trace (w : World) (sv k : String) (doc : NFTMetadata)
    (tr : List Event) :
    (metadataPost w sv k doc tr).2 = tr ∨
      ∃ ep, (metadataPost w sv k doc tr).2 = tr ++ [Event.post ep "metadata.json"] := by
  unfold metadataPost
  split
  · cases w.post pinataEndpoint "metadata.json" (Bytes.ofMetadata doc) k <;>
      exact Or.inr ⟨_, rfl⟩
  split
  · cases w.post nftStorageEndpoint "metadata.json" (Bytes.ofMetadata doc) k <;>
      exact Or.inr ⟨_, rfl⟩
  split
  · cases w.post web3StorageEndpoint "metadata.json" (Bytes.ofMetadata doc) k <;>
      exact Or.inr ⟨_, rfl⟩
  · exact Or.inl rfl

theorem mem_metadata_trace (a : MetadataArgs) (w : World) (e : Event)
    (h : e ∈ (handleCreateMetadata a w).2) :
    e = Event.metadataCall ∨ ∃ ep, e = Event.post ep "metadata.json" := by
  unfold handleCreateMetadata at h
  split at h
  · simp at h
    exact Or.inl h
  · rcases metadataPost_trace w (resolveService a.service w.env)
      (resolveApiKey a.apiKey (resolveService a.service w.env) w.env)
      (buildMetadataDoc a) [Event.metadataCall] with ht | ⟨ep, ht⟩ <;> rw [ht] at h
    · simp at h
      exact Or.inl h
    · simp at h
      rcases h with h | h
      · exact Or.inl h
      · exact Or.inr ⟨_, h⟩

theorem refine_of_resolve_ok (args : PackageArgs) (w : World) (r : Resolved)
    (t : List Event) (h : resolveImage args w = (.ok r, t)) :
    refinePackage args = true := by
  unfold resolveImage at h
  unfold refinePackage
  split at h
  · rename_i hp
    rw [hp]
    rfl
  split at h
  · rename_i hp hu
    rw [hu]
    simp
  split at h
  · rename_i hp hu hpa
    rw [hpa]
    simp
  · simp at h

theorem https_isPre (pre cid : String) :
    "https://".data <+: (("https://" ++ pre) ++ cid).data :=
  ⟨pre.data ++ cid.data, by simp⟩

theorem pinataGateway_https (cid : String) :
    "https://".data <+: (pinataGateway cid).data := by
  have h : pinataGateway cid = ("https://" ++ "gateway.pinata.cloud/ipfs/") ++ cid := rfl
  rw [h]
  exact https_isPre _ _

theorem nftStorageGateway_https (cid : String) :
    "https://".data <+: (nftStorageGateway cid).data := by
  have h : nftStorageGateway cid = ("https://" ++ "nftstorage.link/ipfs/") ++ cid := rfl
  rw [h]
  exact https_isPre _ _

theorem web3StorageGateway_https (cid : String) :
    "https://".data <+: (web3StorageGateway cid).data := by
  have h : web3StorageGateway cid = ("https://" ++ "w3s.link/ipfs/") ++ cid := rfl
  rw [h]
  exact https_isPre _ _

theorem uploadPost_ok (w : World) (sv k : String) (b : Bytes) (f : String)
    (tr : List Event) (r : UploadSuccess) (t : List Event)
    (h : uploadPost w sv k b f tr = (.ok r, t)) :
    r.success = true ∧ r.fileName = f ∧ "https://".data <+: r.gatewayUrl.data := by
  unfold uploadPost at h
  split at h
  · rcases hp : w.post pinataEndpoint f b k with e' | cid <;> rw [hp] at h
    · simp at h
    · simp only [Prod.mk.injEq, Except.ok.injEq] at h
      rw [← h.1]
      exact ⟨rfl, rfl, pinataGateway_https cid⟩
  split at h
  · rcases hp : w.post nftStorageEndpoint f b k with e' | cid <;> rw [hp] at h
    · simp at h
    · simp only [Prod.mk.injEq, Except.ok.injEq] at h
      rw [← h.1]
      exact ⟨rfl, rfl, nftStorageGateway_https cid⟩
  split at h
  · rcases hp : w.post web3StorageEndpoint f b k with e' | cid <;> rw [hp] at h
    · simp at h
    · simp only [Prod.mk.injEq, Except.ok.injEq] at h
      rw [← h.1]
      exact ⟨rfl, rfl, web3StorageGateway_https cid⟩
  · simp at h

theorem upload_ok (a : UploadArgs) (w : World) (r : UploadSuccess) (t : List Event)
    (h : handleUploadToIPFS a w = (.ok r, t)) :
    r.success = true ∧ "https://".data <+: r.gatewayUrl.data := by
  unfold handleUploadToIPFS at h
  split at h
  · simp at h
  split at h
  · simp at h
  split at h
  · rcases hfetch : w.fetch (a.imageUrl.getD "") with e' | buf <;> rw [hfetch] at h
    · simp at h
    · have := uploadPost_ok w _ _ buf _ _ r t h
      exact ⟨this.1, this.2.2⟩
  split at h
  · rcases hread : w.readFile (a.imagePath.getD "") with e' | buf <;> rw [hread] at h
    · simp at h
    · have := uploadPost_ok w _ _ buf _ _ r t h
      exact ⟨this.1, this.2.2⟩
  · simp at h

theorem metadataPost_ok (w : World) (sv k : String) (doc : NFTMetadata)
    (tr : List Event) (mr : MetadataSuccess) (t : List Event)
    (h : metadataPost w sv k doc tr = (.ok mr, t)) :
    mr.success = true ∧ mr.metadata = doc := by
  unfold metadataPost at h
  split at h
  · rcases hp : w.post pinataEndpoint "metadata.json" (Bytes.ofMetadata doc) k with e' | cid <;> rw [hp] at h
    · simp at h
    · simp only [Prod.mk.injEq, Except.ok.injEq] at h
      rw [← h.1]
      exact ⟨rfl, rfl⟩
  split at h
  · rcases hp : w.post nftStorageEndpoint "metadata.json" (Bytes.ofMetadata doc) k with e' | cid <;> rw [hp] at h
    · simp at h
    · simp only [Prod.mk.injEq, Except.ok.injEq] at h
      rw [← h.1]
      exact ⟨rfl, rfl⟩
  split at h
  · rcases hp : w.post web3StorageEndpoint "metadata.json" (Bytes.ofMetadata doc) k with e' | cid <;> rw [hp] at h
    · simp at h
    · simp only [Prod.mk.injEq, Except.ok.injEq] at h
      rw [← h.1]
      exact ⟨rfl, rfl⟩
  · simp at h

theorem metadata_ok (a : MetadataArgs) (w : World) (mr : MetadataSuccess)
    (t : List Event) (h : handleCreateMetadata a w = (.ok mr, t)) :
    mr.success = true ∧ mr.metadata = buildMetadataDoc a := by
  unfold handleCreateMetadata at h
  split at h
  · simp at h
  · exact metadataPost_ok w _ _ _ _ mr t h

theorem ne_of_https (s t : String) (h : "https://".data <+: t.data) :
    ("ipfs://" ++ s) ≠ t := by
  intro heq
  obtain ⟨rest, hr⟩ := h
  have hd : "ipfs://".data ++ s.data = "https://".data ++ rest := by
    rw [← String.data_append, heq, ← hr]
  have e1 : "ipfs://".data = 'i' :: "pfs://".data := rfl
  have e2 : "https://".data = 'h' :: "ttps://".data := rfl
  rw [e1, e2, List.cons_append, List.cons_append] at hd
  have := List.head_eq_of_cons_eq hd
  simp at this

theorem upload_trace_no_gen (a : UploadArgs) (w : World) (e : Event)
    (h : e ∈ (handleUploadToIPFS a w).2) : Event.isGenerate e = false := by
  rcases mem_upload_trace a w e h with ⟨u, rfl⟩ | ⟨p, rfl⟩ | ⟨ep, f, rfl⟩ <;> rfl

theorem metadata_trace_no_gen (a : MetadataArgs) (w : World) (e : Event)
    (h : e ∈ (handleCreateMetadata a w).2) : Event.isGenerate e = false := by
  rcases mem_metadata_trace a w e h with rfl | ⟨ep, rfl⟩ <;> rfl

theorem mem_package_trace (args : PackageArgs) (w : World) (e : Event)
    (h : e ∈ (handleCreatePackage args w).2) :
    e ∈ (resolveImage args w).2 ∨ Event.isGenerate e = false := by
  unfold handleCreatePackage at h
  split at h
  · simp at h
  split at h
  · rename_i m t1 hres
    left
    rw [hres]
    exact h
  · rename_i r t1 hres
    split at h
    · rename_i m t2 hup
      rcases List.mem_append.1 h with hm | hm
      · left
        rw [hres]
        exact hm
      · right
        have ht : (handleUploadToIPFS (packageUploadArgs args r w.now) w).2 = t2 := by
          rw [hup]
        exact upload_trace_no_gen _ w e (ht.symm ▸ hm)
    · rename_i ur t2 hup
      have ht : (handleUploadToIPFS (packageUploadArgs args r w.now) w).2 = t2 := by
        rw [hup]
      split at h
      · rcases List.mem_append.1 h with hm | hm
        · left
          rw [hres]
          exact hm
        · exact Or.inr (upload_trace_no_gen _ w e (ht.symm ▸ hm))
      split at h
      · rcases List.mem_append.1 h with hm | hm
        · left
          rw [hres]
          exact hm
        · exact Or.inr (upload_trace_no_gen _ w e (ht.symm ▸ hm))
      split at h
      · rename_i m t3 hmd
        have ht3 : (handleCreateMetadata (packageMetadataArgs args ur.cid) w).2 = t3 := by
          rw [hmd]
        rcases List.mem_append.1 h with hm | hm
        · rcases List.mem_append.1 hm with hm' | hm'
          · left
            rw [hres]
            exact hm'
          · exact Or.inr (upload_trace_no_gen _ w e (ht.symm ▸ hm'))
        · exact Or.inr (metadata_trace_no_gen _ w e (ht3.symm ▸ hm))
      · rename_i mr t3 hmd
        have ht3 : (handleCreateMetadata (packageMetadataArgs args ur.cid) w).2 = t3 := by
          rw [hmd]
        split at h <;>
          (rcases List.mem_append.1 h with hm | hm
           · rcases List.mem_append.1 hm with hm' | hm'
             · left
               rw [hres]
               exact hm'
             · exact Or.inr (upload_trace_no_gen _ w e (ht.symm ▸ hm'))
           · exact Or.inr (metadata_trace_no_gen _ w e (ht3.symm ▸ hm)))

deriving instance DecidableEq for Except

/-! ## Claim theorems -/

/-- C1: for every successful `build_complete` run, the metadata document's
image reference equals `"ipfs://" ++ imageCid` for the CID returned by the
image upload stage, and is never the gateway HTTP URL of that asset. -/
theorem c1_metadata_image_is_cid_uri (args : PackageArgs) (w : World)
    (res : PackageSuccess) (tr : List Event)
    (h : handleCreatePackage args w = (.ok res, tr)) :
    res.metadata.image = "ipfs://" ++ res.imageCid ∧
      res.metadata.image ≠ res.imageUrl := by
  unfold handleCreatePackage at h
  split at h
  · simp at h
  split at h
  · simp at h
  · rename_i r t1 hres
    split at h
    · simp at h
    · rename_i ur t2 hup
      split at h
      · simp at h
      split at h
      · simp at h
      split at h
      · simp at h
      · rename_i mr t3 hmd
        split at h
        · simp at h
        · simp only [Prod.mk.injEq, Except.ok.injEq] at h
          obtain ⟨h1, h2⟩ := h
          rw [← h1]
          have hm := metadata_ok _ w mr t3 hmd
          have hu := upload_ok _ w ur t2 hup
          constructor
          · rw [hm.2]
            rfl
          · rw [hm.2]
            exact ne_of_https ur.cid ur.gatewayUrl hu.2

/-- Witness for C1: the concrete successful run of `argsUrl` in `okWorld`. -/
theorem c1_witness : resOkPkg.metadata.image = "ipfs://" ++ resOkPkg.imageCid ∧
    resOkPkg.metadata.image ≠ resOkPkg.imageUrl :=
  c1_metadata_image_is_cid_uri argsUrl okWorld resOkPkg okPkgTrace (by decide)

/-- C2: if the image upload stage of `build_complete` fails, the run aborts
with the single wrapped upload-stage error and the metadata stage is never
invoked (no `metadataCall` in the whole trace). -/
theorem c2_upload_failure_halts (args : PackageArgs) (w : World) (r : Resolved)
    (t1 : List Event) (m : String) (t2 : List Event)
    (hres : resolveImage args w = (.ok r, t1))
    (hup : handleUploadToIPFS (packageUploadArgs args r w.now) w = (.error m, t2)) :
    handleCreatePackage args w = (.error (pkgWrap m), t1 ++ t2) ∧
      Event.metadataCall ∉ t1 ++ t2 := by
  constructor
  · have h1 := refine_of_resolve_ok args w r t1 hres
    simp [handleCreatePackage, h1, hres, hup]
  · intro hmem
    rcases List.mem_append.1 hmem with hm | hm
    · obtain ⟨q, hq⟩ := mem_resolve_trace args w _ (by rw [hres]; exact hm)
      exact Event.noConfusion hq
    · have ht : (handleUploadToIPFS (packageUploadArgs args r w.now) w).2 = t2 := by
        rw [hup]
      rcases mem_upload_trace _ w _ (ht.symm ▸ hm) with ⟨u, hq⟩ | ⟨p, hq⟩ | ⟨ep, f, hq⟩ <;>
        exact Event.noConfusion hq

/-- Witness for C2: a concrete run whose image post fails with HTTP 500. -/
theorem c2_witness :
    handleCreatePackage argsUrl postFailWorld =
      (.error (pkgWrap "IPFS upload failed (500): server oops"),
       [] ++ [Event.fetchUrl "http://x/fox.png", Event.post pinataEndpoint "fox.png"]) ∧
      Event.metadataCall ∉
        ([] ++ [Event.fetchUrl "http://x/fox.png", Event.post pinataEndpoint "fox.png"]) :=
  c2_upload_failure_halts argsUrl postFailWorld rUrl []
    "IPFS upload failed (500): server oops"
    [Event.fetchUrl "http://x/fox.png", Event.post pinataEndpoint "fox.png"]
    (by decide) (by decide)

/-- C3: a `build_complete` request with no (truthy) prompt, imageUrl or
imagePath fails with the invalid-request error and an empty trace, i.e.
before any external call. -/
theorem c3_no_source_invalid_request (args : PackageArgs) (w : World)
    (h1 : jsTruthy args.prompt = false) (h2 : jsTruthy args.imageUrl = false)
    (h3 : jsTruthy args.imagePath = false) :
    handleCreatePackage args w =
      (.error (pkgWrap "Must provide either prompt, imageUrl, or imagePath"), []) := by
  have hr : refinePackage args = false := by
    unfold refinePackage
    rw [h1, h2, h3]
    rfl
  simp [handleCreatePackage, hr]

/-- Witness for C3: the sourceless request in `okWorld`. -/
theorem c3_witness :
    handleCreatePackage argsNone okWorld =
      (.error (pkgWrap "Must provide either prompt, imageUrl, or imagePath"), []) :=
  c3_no_source_invalid_request argsNone okWorld (by decide) (by decide) (by decide)

/-- C4: a valid `build_complete` request with an imageUrl and no prompt never
invokes generation, and the supplied URL is resolved and handed to the
upload stage unchanged. -/
theorem c4_url_no_generation (args : PackageArgs) (w : World)
    (hp : jsTruthy args.prompt = false) (hu : jsTruthy args.imageUrl = true) :
    (∀ q, Event.generate q ∉ (handleCreatePackage args w).2) ∧
      resolveImage args w =
        (.ok { finalImageUrl := args.imageUrl, finalImagePath := none,
               generatedPrompt := none }, []) ∧
      (packageUploadArgs args
        { finalImageUrl := args.imageUrl, finalImagePath := none, generatedPrompt := none }
        w.now).imageUrl = args.imageUrl := by
  have hres : resolveImage args w =
      (.ok { finalImageUrl := args.imageUrl, finalImagePath := none,
             generatedPrompt := none }, []) := by
    simp [resolveImage, hp, hu]
  refine ⟨?_, hres, ?_⟩
  · intro q hq
    rcases mem_package_trace args w _ hq with hin | hfalse
    · rw [hres] at hin
      simp at hin
    · simp [Event.isGenerate] at hfalse
  · simp [packageUploadArgs, jsUndef, hu]

/-- Witness for C4: the `argsUrl` run in `okWorld`. -/
theorem c4_witness :
    Event.generate "a red fox" ∉ (handleCreatePackage argsUrl okWorld).2 ∧
      resolveImage argsUrl okWorld = (.ok rUrl, []) ∧
      (packageUploadArgs argsUrl rUrl okWorld.now).imageUrl = argsUrl.imageUrl := by
  have h := c4_url_no_generation argsUrl okWorld (by decide) (by decide)
  exact ⟨h.1 "a red fox", h.2.1, h.2.2⟩

/-- C6: with no credential resolvable for the selected service, both IPFS
handlers fail with the configuration error naming the per-service
environment variable, before any fetch, read or upload; the variable name
occurs verbatim in the message. -/
theorem c6_missing_credential (ua : UploadArgs) (ma : MetadataArgs) (w : World) :
    ((jsTruthy ua.imageUrl || jsTruthy ua.imagePath) = true →
      resolveApiKey ua.apiKey (resolveService ua.service w.env) w.env = "" →
      handleUploadToIPFS ua w =
        (.error ("IPFS upload failed: " ++
           apiKeyRequiredMsg (resolveService ua.service w.env)), [])) ∧
    (resolveApiKey ma.apiKey (resolveService ma.service w.env) w.env = "" →
      handleCreateMetadata ma w =
        (.error ("Metadata creation failed: " ++
           apiKeyRequiredMsg (resolveService ma.service w.env)), [Event.metadataCall])) ∧
    (∀ s, containsSub (jsShowOpt (serviceEnvMap s)) (apiKeyRequiredMsg s)) := by
  refine ⟨?_, ?_, ?_⟩
  · intro hsrc hkey
    simp [handleUploadToIPFS, hsrc, hkey]
  · intro hkey
    simp [handleCreateMetadata, hkey]
  · intro s
    refine ⟨("API key/JWT required for " ++ s ++ ". Set ").data,
      " in environment or pass as apiKey parameter.".data, ?_⟩
    simp [apiKeyRequiredMsg]

/-- Witness for C6: both handlers with no key anywhere in `okWorld`. -/
theorem c6_witness :
    handleUploadToIPFS uaNoKey okWorld =
      (.error ("IPFS upload failed: " ++ apiKeyRequiredMsg "pinata"), []) ∧
    handleCreateMetadata maNoKey okWorld =
      (.error ("Metadata creation failed: " ++ apiKeyRequiredMsg "pinata"),
       [Event.metadataCall]) := by
  have h := c6_missing_credential uaNoKey maNoKey okWorld
  exact ⟨h.1 (by decide) (by decide), h.2.1 (by decide)⟩

theorem uploadPost_known (w : World) (sv k : String) (b : Bytes) (f : String)
    (tr : List Event) (hsv : serviceKnown sv) :
    (uploadPost w sv k b f tr).2 = tr ++ [Event.post (endpointOf sv) f] ∧
      ∀ r t, uploadPost w sv k b f tr = (.ok r, t) → r.fileName = f := by
  rcases hsv with rfl | rfl | rfl
  · constructor
    · rcases hp : w.post pinataEndpoint f b k with e' | cid <;>
        simp [uploadPost, endpointOf, hp]
    · intro r t h
      unfold uploadPost at h
      rcases hp : w.post pinataEndpoint f b k with e' | cid <;> simp [hp] at h
      rw [← h.1]
  · constructor
    · rcases hp : w.post nftStorageEndpoint f b k with e' | cid <;>
        simp [uploadPost, endpointOf, hp]
    · intro r t h
      unfold uploadPost at h
      rcases hp : w.post nftStorageEndpoint f b k with e' | cid <;> simp [hp] at h
      rw [← h.1]
  · constructor
    · rcases hp : w.post web3StorageEndpoint f b k with e' | cid <;>
        simp [uploadPost, endpointOf, hp]
    · intro r t h
      unfold uploadPost at h
      rcases hp : w.post web3StorageEndpoint f b k with e' | cid <;> simp [hp] at h
      rw [← h.1]

theorem strMk_eq_empty_iff (l : List Char) : (String.mk l = "") ↔ l = [] := by
  constructor
  · intro h
    have h2 := congrArg String.data h
    simpa using h2
  · intro h
    rw [h]

theorem lastSegment_empty_iff (p : String) (h : p ≠ "") :
    (lastSegment p = "" ↔ p.data.getLast? = some '/') := by
  have hd : p.data ≠ [] := by
    intro hc
    exact h (String.ext (by rw [hc]))
  rcases hrev : p.data.reverse with _ | ⟨c, t⟩
  · rw [List.reverse_eq_nil_iff] at hrev
    exact absurd hrev hd
  · have hlast : p.data.getLast? = some c := by
      rw [← List.head?_reverse, hrev]
      rfl
    have hseg : lastSegment p =
        String.mk ((List.takeWhile (fun x => x != '/') (c :: t)).reverse) := by
      unfold lastSegment
      rw [hrev]
    by_cases hc : c = '/'
    · have hempty : lastSegment p = "" := by
        rw [hseg, hc, List.takeWhile_cons]
        simp
      rw [hempty, hlast, hc]
      simp
    · have hcb : (c != '/') = true := bne_iff_ne.2 hc
      have hne2 : lastSegment p ≠ "" := by
        rw [hseg, List.takeWhile_cons, if_pos hcb, Ne, strMk_eq_empty_iff,
          List.reverse_eq_nil_iff]
        simp
      rw [hlast]
      constructor
      · intro hx
        exact absurd hx hne2
      · intro hx
        exact absurd (Option.some.inj hx) hc

/-- C8: for uploads from a URL, the filename actually posted is the URL last
path segment when that segment contains an extension dot, else the parsed
(caller-supplied or default) filename; the success envelope reports it. -/
theorem c8_url_filename (args : UploadArgs) (w : World) (u : String) (b : Bytes)
    (hu : args.imageUrl = some u) (hne : u ≠ "")
    (hkey : resolveApiKey args.apiKey (resolveService args.service w.env) w.env ≠ "")
    (hfetch : w.fetch u = .ok b)
    (hsvc : serviceKnown (resolveService args.service w.env)) :
    ((handleUploadToIPFS args w).2 =
      [Event.fetchUrl u, Event.post (endpointOf (resolveService args.service w.env))
        (urlInferredFileName u (args.fileName.getD "image.png"))]) ∧
    (∀ r t, handleUploadToIPFS args w = (.ok r, t) →
      r.fileName = urlInferredFileName u (args.fileName.getD "image.png")) ∧
    (urlInferredFileName u (args.fileName.getD "image.png") =
      if lastSegment (urlPathname u) ≠ "" ∧ (lastSegment (urlPathname u)).data.contains '.' = true
      then lastSegment (urlPathname u) else args.fileName.getD "image.png") := by
  have htru : jsTruthy args.imageUrl = true := by
    rw [hu]
    exact bne_iff_ne.2 hne
  have hgetD : args.imageUrl.getD "" = u := by
    rw [hu]
    rfl
  have hred : handleUploadToIPFS args w =
      uploadPost w (resolveService args.service w.env)
        (resolveApiKey args.apiKey (resolveService args.service w.env) w.env) b
        (urlInferredFileName u (args.fileName.getD "image.png")) [Event.fetchUrl u] := by
    unfold handleUploadToIPFS
    rw [hgetD]
    simp [htru, hkey, hfetch]
  refine ⟨?_, ?_, ?_⟩
  · rw [hred]
    exact (uploadPost_known w _ _ b _ [Event.fetchUrl u] hsvc).1
  · intro r t h
    rw [hred] at h
    exact (uploadPost_known w _ _ b _ [Event.fetchUrl u] hsvc).2 r t h
  · by_cases h1 : lastSegment (urlPathname u) = "" <;>
      by_cases h2 : (lastSegment (urlPathname u)).data.contains '.' = true <;>
      simp [urlInferredFileName, h1, h2]

/-- Witness for C8: `ua8` in `okWorld`; the URL segment `fox.png` overrides
the explicit `custom.png`. -/
theorem c8_witness :
    ((handleUploadToIPFS ua8 okWorld).2 =
      [Event.fetchUrl "http://x/a/fox.png", Event.post pinataEndpoint "fox.png"]) ∧
    ua8res.fileName = "fox.png" := by
  have h := c8_url_filename ua8 okWorld "http://x/a/fox.png" (Bytes.raw "http://x/a/fox.png")
    rfl (by decide) (by decide) (by decide) (by decide)
  exact ⟨h.1, h.2.1 ua8res
    [Event.fetchUrl "http://x/a/fox.png", Event.post pinataEndpoint "fox.png"] (by decide)⟩

/-- C10: for uploads from a local path, the posted filename is the last
'/'-separated segment of the path when non-empty, else the parsed filename;
the segment is empty exactly when the path ends in '/'. -/
theorem c10_path_filename (args : UploadArgs) (w : World) (p : String) (b : Bytes)
    (hp : args.imagePath = some p) (hpne : p ≠ "")
    (hnourl : jsTruthy args.imageUrl = false)
    (hkey : resolveApiKey args.apiKey (resolveService args.service w.env) w.env ≠ "")
    (hread : w.readFile p = .ok b)
    (hsvc : serviceKnown (resolveService args.service w.env)) :
    ((handleUploadToIPFS args w).2 =
      [Event.readFile p, Event.post (endpointOf (resolveService args.service w.env))
        (jsOrS (lastSegment p) (args.fileName.getD "image.png"))]) ∧
    (∀ r t, handleUploadToIPFS args w = (.ok r, t) →
      r.fileName = jsOrS (lastSegment p) (args.fileName.getD "image.png")) ∧
    (lastSegment p = "" ↔ p.data.getLast? = some '/') := by
  have htru : jsTruthy args.imagePath = true := by
    rw [hp]
    exact bne_iff_ne.2 hpne
  have hgetD : args.imagePath.getD "" = p := by
    rw [hp]
    rfl
  have hred : handleUploadToIPFS args w =
      uploadPost w (resolveService args.service w.env)
        (resolveApiKey args.apiKey (resolveService args.service w.env) w.env) b
        (jsOrS (lastSegment p) (args.fileName.getD "image.png")) [Event.readFile p] := by
    unfold handleUploadToIPFS
    rw [hgetD]
    simp [htru, hnourl, hkey, hread]
  refine ⟨?_, ?_, lastSegment_empty_iff p hpne⟩
  · rw [hred]
    exact (uploadPost_known w _ _ b _ [Event.readFile p] hsvc).1
  · intro r t h
    rw [hred] at h
    exact (uploadPost_known w _ _ b _ [Event.readFile p] hsvc).2 r t h

/-- Witness for C10: `ua10` in `pathWorld`; the basename `img.png` overrides
the explicit `fallback.png`. -/
theorem c10_witness :
    ((handleUploadToIPFS ua10 pathWorld).2 =
      [Event.readFile "dir/img.png", Event.post pinataEndpoint "img.png"]) ∧
    ua10res.fileName = "img.png" ∧
    (lastSegment "dir/img.png" = "" ↔ ("dir/img.png" : String).data.getLast? = some '/') := by
  have h := c10_path_filename ua10 pathWorld "dir/img.png" (Bytes.raw "dir/img.png")
    rfl (by decide) (by decide) (by decide) (by decide) (by decide)
  exact ⟨h.1, h.2.1 ua10res
    [Event.readFile "dir/img.png", Event.post pinataEndpoint "img.png"] (by decide), h.2.2⟩

/-- C7 counterexample: in `metaFailWorld` the metadata post fails with
status 500 and body `boom` after the image CID `abc123` was obtained; the
surfaced error contains neither the image CID nor any part of the metadata
document (not even the NFT name `Fox 1`), refuting the claim that the error
carries them. -/
theorem c7_counterexample :
    (handleCreatePackage argsUrl metaFailWorld).1 =
      .error "NFT package creation failed: Metadata upload failed (500): boom" ∧
    ¬ containsSub "abc123"
        "NFT package creation failed: Metadata upload failed (500): boom" ∧
    ¬ containsSub "Fox"
        "NFT package creation failed: Metadata upload failed (500): boom" := by
  refine ⟨by decide, by decide, by decide⟩

/-- C7 (amended): if the metadata upload sub-step fails after a successful
image upload, the run aborts with the single wrapped metadata-stage error
message (built by `metadataErrorMsg` from the upstream status/body); the
metadata document and image CID are not part of it, and nothing is rolled
back (the trace keeps the successful image post). -/
theorem c7_metadata_failure_wraps_message (args : PackageArgs) (w : World)
    (r : Resolved) (t1 : List Event) (ur : UploadSuccess) (t2 : List Event)
    (m : String) (t3 : List Event)
    (hres : resolveImage args w = (.ok r, t1))
    (hup : handleUploadToIPFS (packageUploadArgs args r w.now) w = (.ok ur, t2))
    (hcid : ur.cid ≠ "")
    (hmd : handleCreateMetadata (packageMetadataArgs args ur.cid) w = (.error m, t3)) :
    handleCreatePackage args w = (.error (pkgWrap m), t1 ++ t2 ++ t3) := by
  have h1 := refine_of_resolve_ok args w r t1 hres
  have h2 := (upload_ok _ w ur t2 hup).1
  simp [handleCreatePackage, h1, hres, hup, h2, hcid, hmd]

/-- Witness for the amended C7: the concrete `metaFailWorld` run. -/
theorem c7_witness :
    handleCreatePackage argsUrl metaFailWorld =
      (.error (pkgWrap "Metadata upload failed (500): boom"),
       [] ++ [Event.fetchUrl "http://x/fox.png", Event.post pinataEndpoint "fox.png"] ++
         [Event.metadataCall, Event.post pinataEndpoint "metadata.json"]) :=
  c7_metadata_failure_wraps_message argsUrl metaFailWorld rUrl [] urFox
    [Event.fetchUrl "http://x/fox.png", Event.post pinataEndpoint "fox.png"]
    "Metadata upload failed (500): boom"
    [Event.metadataCall, Event.post pinataEndpoint "metadata.json"]
    (by decide) (by decide) (by decide) (by decide)

theorem upload_ignores_imagePath (a : UploadArgs) (x : Option String) (w : World)
    (h : jsTruthy a.imageUrl = true) :
    handleUploadToIPFS { a with imagePath := x } w = handleUploadToIPFS a w := by
  simp [handleUploadToIPFS, h]

theorem resolve_prompt_ignores_sources (a : PackageArgs) (u2 p2 : Option String)
    (w : World) (h : jsTruthy a.prompt = true) :
    resolveImage { a with imageUrl := u2, imagePath := p2 } w = resolveImage a w := by
  simp [resolveImage, genRequestOfPackage, h]

theorem resolve_ok_truthy (args : PackageArgs) (w : World) (r : Resolved)
    (t1 : List Event) (hp : jsTruthy args.prompt = true)
    (hres : resolveImage args w = (.ok r, t1)) :
    (jsTruthy r.finalImageUrl || jsTruthy r.finalImagePath) = true := by
  unfold resolveImage at hres
  rw [if_pos hp] at hres
  split at hres
  · simp at hres
  · split at hres
    · simp at hres
    · rename_i g hg hcond
      push_neg at hcond
      simp only [Prod.mk.injEq, Except.ok.injEq] at hres
      rw [← hres.1]
      cases hA : jsTruthy g.imageUrl
      · cases hB : jsTruthy g.localPath
        · exact absurd hB (hcond.2 hA)
        · rfl
      · rfl

/-- C9: supplying several image sources does not reject the request; the
source is picked with precedence prompt, then imageUrl, then imagePath, and
the run is bit-for-bit identical to the run without the losing sources. -/
theorem c9_source_precedence (args : PackageArgs) (w : World) :
    (jsTruthy args.prompt = true →
      refinePackage args = true ∧
      handleCreatePackage args w =
        handleCreatePackage { args with imageUrl := none, imagePath := none } w) ∧
    (jsTruthy args.prompt = false → jsTruthy args.imageUrl = true →
      refinePackage args = true ∧
      handleCreatePackage args w =
        handleCreatePackage { args with imagePath := none } w) := by
  constructor
  · intro hp
    have hra : refinePackage args = true := by simp [refinePackage, hp]
    have hra2 : refinePackage { args with imageUrl := none, imagePath := none } = true := by
      simp [refinePackage, hp]
    refine ⟨hra, ?_⟩
    have hresEq := resolve_prompt_ignores_sources args none none w hp
    rcases hres : resolveImage args w with ⟨res1, t1⟩
    rcases res1 with m | r
    · simp [handleCreatePackage, hra, hra2, hresEq, hres]
    · have hupEq : handleUploadToIPFS
          (packageUploadArgs { args with imageUrl := none, imagePath := none } r w.now) w
          = handleUploadToIPFS (packageUploadArgs args r w.now) w := by
        by_cases hfp : jsTruthy r.finalImagePath = true
        · have hsame : packageUploadArgs { args with imageUrl := none, imagePath := none } r w.now
              = packageUploadArgs args r w.now := by
            simp [packageUploadArgs, packageFileName, packageBaseFileName, jsOrOpt, hfp]
          rw [hsame]
        · have hT := resolve_ok_truthy args w r t1 hp hres
          have hfp2 : jsTruthy r.finalImagePath = false := by
            cases hx : jsTruthy r.finalImagePath
            · rfl
            · exact absurd hx hfp
          have hurl : jsTruthy r.finalImageUrl = true := by
            rw [hfp2] at hT
            cases hx : jsTruthy r.finalImageUrl
            · rw [hx] at hT
              simp at hT
            · rfl
          have h2 : packageUploadArgs { args with imageUrl := none, imagePath := none } r w.now
              = { packageUploadArgs args r w.now with imagePath := jsOrOpt r.finalImagePath none } := by
            simp [packageUploadArgs, packageFileName, packageBaseFileName]
          have h3 : jsTruthy (packageUploadArgs args r w.now).imageUrl = true := by
            simp [packageUploadArgs, jsTruthy_jsUndef, hurl]
          rw [h2]
          exact upload_ignores_imagePath (packageUploadArgs args r w.now)
            (jsOrOpt r.finalImagePath none) w h3
      have hmdEq : ∀ cid, packageMetadataArgs { args with imageUrl := none, imagePath := none } cid
          = packageMetadataArgs args cid := fun cid => rfl
      simp [handleCreatePackage, hra, hra2, hresEq, hres, hupEq, hmdEq]
  · intro hp hu
    have hra : refinePackage args = true := by simp [refinePackage, hu]
    have hra2 : refinePackage { args with imagePath := none } = true := by
      simp [refinePackage, hu]
    refine ⟨hra, ?_⟩
    have hres : resolveImage args w =
        (.ok { finalImageUrl := args.imageUrl, finalImagePath := none,
               generatedPrompt := none }, []) := by
      simp [resolveImage, hp, hu]
    have hres2 : resolveImage { args with imagePath := none } w =
        (.ok { finalImageUrl := args.imageUrl, finalImagePath := none,
               generatedPrompt := none }, []) := by
      simp [resolveImage, hp, hu]
    have h3 : jsTruthy (packageUploadArgs args
        { finalImageUrl := args.imageUrl, finalImagePath := none,
          generatedPrompt := none } w.now).imageUrl = true := by
      simp [packageUploadArgs, jsTruthy_jsUndef, hu]
    have h2 : packageUploadArgs { args with imagePath := none }
        { finalImageUrl := args.imageUrl, finalImagePath := none,
          generatedPrompt := none } w.now
        = { packageUploadArgs args
              { finalImageUrl := args.imageUrl, finalImagePath := none,
                generatedPrompt := none } w.now with imagePath := none } := by
      simp [packageUploadArgs, packageFileName, packageBaseFileName, jsOrOpt, jsTruthy]
    have hupEq := upload_ignores_imagePath (packageUploadArgs args
      { finalImageUrl := args.imageUrl, finalImagePath := none,
        generatedPrompt := none } w.now) none w h3
    have hmdEq : ∀ cid, packageMetadataArgs { args with imagePath := none } cid
        = packageMetadataArgs args cid := fun cid => rfl
    simp [handleCreatePackage, hra, hra2, hres, hres2, h2, hupEq, hmdEq]

/-- Witness for C9: all three sources supplied in `genOkWorld`; the prompt
wins and the run equals the run without imageUrl/imagePath. -/
theorem c9_witness :
    refinePackage argsAll = true ∧
    handleCreatePackage argsAll genOkWorld =
      handleCreatePackage { argsAll with imageUrl := none, imagePath := none } genOkWorld :=
  (c9_source_precedence argsAll genOkWorld).1 (by decide)

/-! ## Slug lemmas (C5) -/

theorem jsToLower_fix (c : Char) (h : isAlnumLower c = true) : jsToLower c = c := by
  unfold isAlnumLower at h
  simp only [Bool.or_eq_true, Bool.and_eq_true, decide_eq_true_eq] at h
  unfold jsToLower
  rw [if_neg (by omega)]

theorem hyphenMap_fix (c : Char) (h : isSanChar c = true) :
    hyphenMap (jsToLower c) = c := by
  unfold isSanChar at h
  rw [Bool.or_eq_true] at h
  rcases h with h1 | h1
  · rw [jsToLower_fix c h1]
    unfold hyphenMap
    rw [if_pos h1]
  · rw [eq_of_beq h1]
    decide

theorem sanChar_out (c : Char) : isSanChar (hyphenMap (jsToLower c)) = true := by
  unfold hyphenMap
  split
  · rename_i h
    unfold isSanChar
    rw [h]
    rfl
  · decide

theorem map_fix (l : List Char) (h : ∀ c ∈ l, isSanChar c = true) :
    l.map (fun c => hyphenMap (jsToLower c)) = l := by
  induction l with
  | nil => rfl
  | cons a t ih =>
    simp only [List.map_cons]
    rw [hyphenMap_fix a (h a (List.mem_cons_self a t)),
      ih (fun c hc => h c (List.mem_cons_of_mem a hc))]

theorem collapseHyphens_mem : ∀ (l : List Char) (c : Char),
    c ∈ collapseHyphens l → c ∈ l
  | [], c, h => by simp [collapseHyphens] at h
  | [a], c, h => by
    simp [collapseHyphens] at h
    simp [h]
  | a :: b :: rest, c, h => by
    simp only [collapseHyphens] at h
    split at h
    · exact List.mem_cons_of_mem a (collapseHyphens_mem (b :: rest) c h)
    · rcases List.mem_cons.1 h with h1 | h1
      · rw [h1]
        exact List.mem_cons_self a _
      · exact List.mem_cons_of_mem a (collapseHyphens_mem (b :: rest) c h1)

theorem collapseHyphens_head? : ∀ l : List Char,
    (collapseHyphens l).head? = l.head?
  | [] => rfl
  | [a] => rfl
  | a :: b :: rest => by
    simp only [collapseHyphens]
    split
    · rename_i hab
      rw [collapseHyphens_head? (b :: rest)]
      simp [hab.1, hab.2]
    · rfl

theorem collapseHyphens_chain : ∀ l : List Char,
    List.Chain' noDD (collapseHyphens l)
  | [] => List.chain'_nil
  | [a] => List.chain'_singleton a
  | a :: b :: rest => by
    simp only [collapseHyphens]
    split
    · exact collapseHyphens_chain (b :: rest)
    · rename_i hab
      refine List.chain'_cons'.2 ⟨?_, collapseHyphens_chain (b :: rest)⟩
      intro y hy
      rw [collapseHyphens_head?] at hy
      simp only [List.head?_cons, Option.mem_def, Option.some.injEq] at hy
      rw [← hy]
      exact hab

theorem collapseHyphens_eq_self : ∀ l : List Char,
    List.Chain' noDD l → collapseHyphens l = l
  | [], _ => rfl
  | [a], _ => rfl
  | a :: b :: rest, h => by
    simp only [collapseHyphens]
    rw [if_neg ((List.chain'_cons.1 h).1),
      collapseHyphens_eq_self (b :: rest) (List.chain'_cons.1 h).2]

theorem dropWhile_head_not (p : Char → Bool) : ∀ (l : List Char) (c : Char),
    (l.dropWhile p).head? = some c → p c = false
  | [], c, h => by simp [List.dropWhile] at h
  | a :: t, c, h => by
    rw [List.dropWhile_cons] at h
    split at h
    · exact dropWhile_head_not p t c h
    · rename_i hpa
      simp only [List.head?_cons, Option.some.injEq] at h
      rw [← h]
      simp at hpa
      exact hpa

theorem dropWhile_eq_self_of_head (p : Char → Bool) (l : List Char)
    (h : ∀ c, l.head? = some c → p c = false) : l.dropWhile p = l := by
  cases l with
  | nil => rfl
  | cons a t =>
    rw [List.dropWhile_cons, if_neg (by simp [h a rfl])]

theorem dropTrailing_getLast_not (l : List Char) (c : Char)
    (h : (dropTrailingHyphens l).getLast? = some c) : (c == '-') = false := by
  unfold dropTrailingHyphens at h
  rw [List.getLast?_reverse] at h
  exact dropWhile_head_not _ _ c h

theorem dropTrailing_eq_self (l : List Char)
    (h : ∀ c, l.getLast? = some c → (c == '-') = false) :
    dropTrailingHyphens l = l := by
  have hh : ∀ c, l.reverse.head? = some c → ((c == '-') : Bool) = false := by
    intro c hc
    rw [List.head?_reverse] at hc
    exact h c hc
  unfold dropTrailingHyphens
  rw [dropWhile_eq_self_of_head _ _ hh, List.reverse_reverse]

theorem dropTrailing_append (l : List Char) :
    dropTrailingHyphens l ++ (l.reverse.takeWhile (· == '-')).reverse = l := by
  unfold dropTrailingHyphens
  rw [← List.reverse_append, List.takeWhile_append_dropWhile, List.reverse_reverse]

theorem mem_of_mem_take50 (c : Char) (l : List Char) (h : c ∈ l.take 50) : c ∈ l := by
  have hd := List.take_append_drop 50 l
  rw [← hd]
  exact List.mem_append.2 (Or.inl h)

theorem mem_of_mem_dropTrailing (c : Char) (l : List Char)
    (h : c ∈ dropTrailingHyphens l) : c ∈ l := by
  have hd := dropTrailing_append l
  rw [← hd]
  exact List.mem_append.2 (Or.inl h)

theorem mem_of_mem_dropLeading (c : Char) (l : List Char)
    (h : c ∈ dropLeadingHyphens l) : c ∈ l := by
  have hd := List.takeWhile_append_dropWhile (· == '-') l
  rw [← hd]
  exact List.mem_append.2 (Or.inr h)

theorem head?_take_fifty (l : List Char) (c : Char) (h : (l.take 50).head? = some c) :
    l.head? = some c := by
  cases l with
  | nil => simp at h
  | cons a t =>
    rw [show (50 : Nat) = 49 + 1 from rfl, List.take_succ_cons] at h
    simpa using h

theorem head?_dropTrailing (l : List Char) (c : Char)
    (h : (dropTrailingHyphens l).head? = some c) : l.head? = some c := by
  have hdec := dropTrailing_append l
  rcases hx : dropTrailingHyphens l with _ | ⟨a, t⟩
  · rw [hx] at h
    simp at h
  · rw [hx] at h hdec
    simp only [List.head?_cons, Option.some.injEq] at h
    rw [← hdec, ← h]
    rfl

theorem sanitizeList_props (l : List Char) :
    (∀ c ∈ sanitizeList l, isSanChar c = true) ∧
    List.Chain' noDD (sanitizeList l) ∧
    (∀ c, (sanitizeList l).head? = some c → (c == '-') = false) ∧
    (sanitizeList l).length ≤ 50 := by
  unfold sanitizeList
  refine ⟨?_, ?_, ?_, ?_⟩
  · intro c hc
    have h1 := mem_of_mem_dropLeading c _
      (mem_of_mem_dropTrailing c _ (mem_of_mem_take50 c _ hc))
    have h2 := collapseHyphens_mem _ c h1
    rcases List.mem_map.1 h2 with ⟨d, _, hdc⟩
    rw [← hdc]
    exact sanChar_out d
  · have hch := collapseHyphens_chain (l.map (fun c => hyphenMap (jsToLower c)))
    have h1 : List.Chain' noDD
        (dropLeadingHyphens (collapseHyphens (l.map (fun c => hyphenMap (jsToLower c))))) := by
      have hd := List.takeWhile_append_dropWhile (· == '-')
        (collapseHyphens (l.map (fun c => hyphenMap (jsToLower c))))
      rw [← hd] at hch
      exact hch.right_of_append
    have h2 : List.Chain' noDD (dropTrailingHyphens (dropLeadingHyphens
        (collapseHyphens (l.map (fun c => hyphenMap (jsToLower c)))))) := by
      have hd := dropTrailing_append (dropLeadingHyphens
        (collapseHyphens (l.map (fun c => hyphenMap (jsToLower c)))))
      rw [← hd] at h1
      exact h1.left_of_append
    have hd := List.take_append_drop 50 (dropTrailingHyphens (dropLeadingHyphens
      (collapseHyphens (l.map (fun c => hyphenMap (jsToLower c))))))
    rw [← hd] at h2
    exact h2.left_of_append
  · intro c hc
    have h1 := head?_take_fifty _ c hc
    have h2 := head?_dropTrailing _ c h1
    exact dropWhile_head_not _ _ c h2
  · rw [List.length_take]
    exact min_le_left _ _

theorem sanitizeList_eq_self (l : List Char)
    (hmem : ∀ c ∈ l, isSanChar c = true)
    (hchain : List.Chain' noDD l)
    (hhead : ∀ c, l.head? = some c → (c == '-') = false)
    (hlast : ∀ c, l.getLast? = some c → (c == '-') = false)
    (hlen : l.length ≤ 50) :
    sanitizeList l = l := by
  unfold sanitizeList
  rw [map_fix l hmem, collapseHyphens_eq_self l hchain]
  unfold dropLeadingHyphens
  rw [dropWhile_eq_self_of_head _ l hhead, dropTrailing_eq_self l hlast,
    List.take_of_length_le hlen]

theorem sanitize_idem (s : String)
    (h : (sanitizeFileName s).data.getLast? ≠ some '-') :
    sanitizeFileName (sanitizeFileName s) = sanitizeFileName s := by
  unfold sanitizeFileName
  congr 1
  obtain ⟨hm, hc, hh, hl⟩ := sanitizeList_props s.data
  refine sanitizeList_eq_self _ hm hc hh ?_ hl
  intro c hcc
  have hcne : c ≠ '-' := by
    intro hc2
    exact h (by rw [← hc2]; exact hcc)
  simpa using hcne

/-- C5 (amended): the slug is a pure function of its input (deterministic);
it is idempotent for every input whose slug does not end in a hyphen (the
50-character truncation can leave a trailing hyphen, and then a second pass
differs - see the counterexample); slug("Dragon #1!!") = "dragon-1"; the
upload filename sent by `build_complete` equals
`slug(name || prompt || 'nft-image') + '-' + Date.now() + '.png'`, and the
generate-image tool derives `slug(prompt) + '-' + Date.now() + '.png'`. -/
theorem c5_slug_behaviour :
    (∀ s : String, (sanitizeFileName s).data.getLast? ≠ some '-' →
      sanitizeFileName (sanitizeFileName s) = sanitizeFileName s) ∧
    sanitizeFileName "Dragon #1!!" = "dragon-1" ∧
    (∀ (parsed : PackageArgs) (r : Resolved) (now : Nat),
      (packageUploadArgs parsed r now).fileName =
        some (sanitizeFileName (jsOrS parsed.name (jsOr parsed.prompt "nft-image")) ++
          "-" ++ toString now ++ ".png")) ∧
    (∀ (args : GenImageArgs) (w : World) (res : GenImageSuccess) (tr : List Event),
      handleGenerateImage args w = (.ok res, tr) →
      res.suggestedFilename =
        sanitizeFileName args.prompt ++ "-" ++ toString w.now ++ ".png") := by
  refine ⟨fun s h => sanitize_idem s h, by decide, fun parsed r now => rfl, ?_⟩
  intro args w res tr h
  unfold handleGenerateImage at h
  split at h
  · simp at h
  · split at h
    · simp at h
    · simp only [Prod.mk.injEq, Except.ok.injEq] at h
      rw [← h.1]

/-- C5 counterexample: the claim as stated fails on the code in two places.
Idempotence: for the 51-character input below (49 `a`s then `-b`) the first
slug pass truncates to 49 `a`s plus a trailing hyphen and a second pass
strips that hyphen, so slug(slug x) differs from slug x.  Filename formula:
for an empty name and no prompt the code falls back to the literal
`nft-image`, not to slug(name or prompt). -/
theorem c5_counterexample :
    (sanitizeFileName
        (sanitizeFileName "aaaaaaaaaaaaaaaaaaaaaaaaaaaaaaaaaaaaaaaaaaaaaaaaa-b") ≠
      sanitizeFileName "aaaaaaaaaaaaaaaaaaaaaaaaaaaaaaaaaaaaaaaaaaaaaaaaa-b") ∧
    (packageUploadArgs argsEmptyName rUrl 5).fileName ≠
      some (sanitizeFileName (jsOrS argsEmptyName.name (jsOr argsEmptyName.prompt "")) ++
        "-" ++ toString (5 : Nat) ++ ".png") := by
  refine ⟨by decide, by decide⟩

/-- Witness for the amended C5: idempotence applied at `"dragon-1"` and the
generate-image filename at the concrete `genOkWorld` run. -/
theorem c5_witness :
    sanitizeFileName (sanitizeFileName "dragon-1") = sanitizeFileName "dragon-1" ∧
    genImgRes.suggestedFilename =
      sanitizeFileName genImgArgs.prompt ++ "-" ++ toString genOkWorld.now ++ ".png" :=
  ⟨c5_slug_behaviour.1 "dragon-1" (by decide),
   c5_slug_behaviour.2.2.2 genImgArgs genOkWorld genImgRes
     [Event.generate "a red fox"] (by decide)⟩

end NFTPipeline
